import Mathlib

/-!
Verification of the `context-core` background capture subsystem.

This file gives a shallow embedding, in Lean 4, of the parts of the
repository that the specification's claims are about:

* `src/context_core/models.py` — `Document`, `DocumentMetadata`,
  `Document.generate_id`,
* `src/context_core/utils.py` — `content_hash` (SHA-256 hex digest),
* `src/context_core/vault.py` — `Vault.add` (the content store's upsert),
* `src/context_core/ingest.py` — `read_file`, `_chunk_text`,
  `read_file_chunked`, `ingest_directory`, `create_manual_document`,
* `src/context_core/watcher/state.py` — the SQLite-backed `WatcherState`,
* `src/context_core/watcher/clipboard_monitor.py` — `check_and_ingest`,
* `src/context_core/watcher/history_ingestor.py` — `parse_history_line`
  and `_ingest_new_commands`,
* `src/context_core/watcher/file_watcher.py` — `VaultFileHandler.handle_file`,
* `src/context_core/watcher/daemon.py` — `_is_process_running`,
  `start_daemon`, `stop_daemon`, `daemon_status`.

Python machine-level details are modelled explicitly: SQLite rows become
`Option` fields of a pure record, mutation becomes state passing, clock
reads and OS probes become parameters, Python exceptions become `Except`,
and floats (only used as wall-clock seconds) become `ℚ`.  SHA-256 itself
is implemented concretely (FIPS 180-4), so identities such as document
ids are computed for real.
-/

namespace ContextCore

/-! ## SHA-256 (FIPS 180-4), used by `utils.content_hash` and
`Document.generate_id`.  Words are `Nat` reduced modulo `2^32`. -/

def add32 (a b : Nat) : Nat := (a + b) % 4294967296

def rotr32 (n x : Nat) : Nat :=
  ((x >>> n) ||| (x <<< (32 - n))) % 4294967296

def not32 (x : Nat) : Nat := 4294967295 ^^^ x

def bsig0 (x : Nat) : Nat := (rotr32 2 x) ^^^ (rotr32 13 x) ^^^ (rotr32 22 x)

def bsig1 (x : Nat) : Nat := (rotr32 6 x) ^^^ (rotr32 11 x) ^^^ (rotr32 25 x)

def ssig0 (x : Nat) : Nat := (rotr32 7 x) ^^^ (rotr32 18 x) ^^^ (x >>> 3)

def ssig1 (x : Nat) : Nat := (rotr32 17 x) ^^^ (rotr32 19 x) ^^^ (x >>> 10)

def chFn (a b c : Nat) : Nat := (a &&& b) ^^^ ((not32 a) &&& c)

def majFn (a b c : Nat) : Nat := (a &&& b) ^^^ (a &&& c) ^^^ (b &&& c)

/-- The 64 SHA-256 round constants (fractional parts of the cube roots of
the first 64 primes), written in decimal: the first is 0x428a2f98, the
last 0xc67178f2. -/
def shaK : List Nat :=
  [1116352408, 1899447441, 3049323471, 3921009573, 961987163, 1508970993,
   2453635748, 2870763221, 3624381080, 310598401, 607225278, 1426881987,
   1925078388, 2162078206, 2614888103, 3248222580, 3835390401, 4022224774,
   264347078, 604807628, 770255983, 1249150122, 1555081692, 1996064986,
   2554220882, 2821834349, 2952996808, 3210313671, 3336571891, 3584528711,
   113926993, 338241895, 666307205, 773529912, 1294757372, 1396182291,
   1695183700, 1986661051, 2177026350, 2456956037, 2730485921, 2820302411,
   3259730800, 3345764771, 3516065817, 3600352804, 4094571909, 275423344,
   430227734, 506948616, 659060556, 883997877, 958139571, 1322822218,
   1537002063, 1747873779, 1955562222, 2024104815, 2227730452, 2361852424,
   2428436474, 2756734187, 3204031479, 3329325298]

/-- The initial SHA-256 hash state (fractional parts of the square roots
of the first 8 primes), in decimal: 0x6a09e667 through 0x5be0cd19. -/
def shaH0 : List Nat :=
  [1779033703, 3144134277, 1013904242, 2773480762,
   1359893119, 2600822924, 528734635, 1541459225]

/-- UTF-8 encoding of one character (Python `str.encode("utf-8")`). -/
def charUTF8 (c : Char) : List Nat :=
  let n := c.toNat
  if n < 0x80 then [n]
  else if n < 0x800 then
    [0xC0 ||| (n >>> 6), 0x80 ||| (n &&& 0x3F)]
  else if n < 0x10000 then
    [0xE0 ||| (n >>> 12), 0x80 ||| ((n >>> 6) &&& 0x3F), 0x80 ||| (n &&& 0x3F)]
  else
    [0xF0 ||| (n >>> 18), 0x80 ||| ((n >>> 12) &&& 0x3F),
     0x80 ||| ((n >>> 6) &&& 0x3F), 0x80 ||| (n &&& 0x3F)]

def toUTF8Bytes (s : String) : List Nat :=
  s.toList.flatMap charUTF8

/-- SHA-256 padding: append `0x80`, zero bytes, and the 64-bit big-endian
bit length, reaching a multiple of 64 bytes. -/
def padMessage (msg : List Nat) : List Nat :=
  let L := msg.length
  let k := (119 - L % 64) % 64
  msg ++ [0x80] ++ List.replicate k 0 ++
    (List.range 8).map (fun i => ((8 * L) >>> (8 * (7 - i))) &&& 0xFF)

/-- Big-endian 32-bit words from a byte list. -/
def bytesToWords : List Nat → List Nat
  | u :: v :: w :: z :: rest =>
      ((u <<< 24) ||| (v <<< 16) ||| (w <<< 8) ||| z) :: bytesToWords rest
  | _ => []

/-- Extend the 16-word block to the 64-word message schedule. -/
def extendSchedule : Nat → Array Nat → Array Nat
  | 0, w => w
  | n + 1, w =>
    let t := w.size
    let s := add32 (add32 (ssig1 (w.getD (t - 2) 0)) (w.getD (t - 7) 0))
                   (add32 (ssig0 (w.getD (t - 15) 0)) (w.getD (t - 16) 0))
    extendSchedule n (w.push s)

structure ShaRegs where
  a : Nat
  b : Nat
  c : Nat
  d : Nat
  e : Nat
  f : Nat
  g : Nat
  h : Nat
deriving DecidableEq

def shaRound (r : ShaRegs) (k w : Nat) : ShaRegs :=
  let t1 := add32 r.h (add32 (bsig1 r.e) (add32 (chFn r.e r.f r.g) (add32 k w)))
  let t2 := add32 (bsig0 r.a) (majFn r.a r.b r.c)
  ⟨add32 t1 t2, r.a, r.b, r.c, add32 r.d t1, r.e, r.f, r.g⟩

def regsOfList : List Nat → ShaRegs
  | [a, b, c, d, e, f, g, h] => ⟨a, b, c, d, e, f, g, h⟩
  | _ => ⟨0, 0, 0, 0, 0, 0, 0, 0⟩

def regsToList (r : ShaRegs) : List Nat :=
  [r.a, r.b, r.c, r.d, r.e, r.f, r.g, r.h]

def compressBlock (h : ShaRegs) (block : List Nat) : ShaRegs :=
  let w := extendSchedule 48 (Array.mk (bytesToWords block))
  let r := (shaK.zip w.toList).foldl (fun r kw => shaRound r kw.1 kw.2) h
  ⟨add32 h.a r.a, add32 h.b r.b, add32 h.c r.c, add32 h.d r.d,
   add32 h.e r.e, add32 h.f r.f, add32 h.g r.g, add32 h.h r.h⟩

/-- Split a padded message into 64-byte blocks, driven by the block count. -/
def blocksOf : Nat → List Nat → List (List Nat)
  | 0, _ => []
  | n + 1, l => l.take 64 :: blocksOf n (l.drop 64)

/-- SHA-256 digest of a byte list, as eight 32-bit words. -/
def sha256Words (msg : List Nat) : List Nat :=
  let p := padMessage msg
  regsToList ((blocksOf (p.length / 64) p).foldl compressBlock (regsOfList shaH0))

def hexDigitChar (n : Nat) : Char :=
  if n < 10 then Char.ofNat (48 + n) else Char.ofNat (87 + n)

/-- Lowercase hexadecimal rendering of one 32-bit word. -/
def hexWordChars (w : Nat) : List Char :=
  (List.range 8).map (fun i => hexDigitChar ((w >>> (4 * (7 - i))) &&& 0xF))

/-- `hashlib.sha256(text.encode("utf-8")).hexdigest()`. -/
def sha256hex (s : String) : String :=
  String.mk ((sha256Words (toUTF8Bytes s)).flatMap hexWordChars)

/-- `utils.content_hash`: SHA-256 hex digest of the UTF-8 encoded text. -/
def content_hash (text : String) : String :=
  sha256hex text

/-- Sanity check of the SHA-256 embedding against the FIPS 180-4 test
vector for `"abc"`. -/
theorem sha256hex_abc_testvector : sha256hex "abc" =
    "ba7816bf8f01cfea414140de5dae2223b00361a396177a9cb410ff61f20015ad" := by
  decide

/-! ## Python string primitives used by the watcher code. -/

/-- Python's default `str.strip()` whitespace set, for the ASCII range. -/
def isPySpace (c : Char) : Bool :=
  c = ' ' || c = '\t' || c = '\n' || c = '\x0d' || c = '\x0b' || c = '\x0c'

/-- Python `str.strip()` (default whitespace stripping). -/
def pyStrip (s : String) : String :=
  String.mk (((s.toList.dropWhile isPySpace).reverse.dropWhile isPySpace).reverse)

def splitWsGo : List Char → List Char → List (List Char)
  | [], acc => if acc.isEmpty then [] else [acc.reverse]
  | c :: rest, acc =>
    if isPySpace c then
      if acc.isEmpty then splitWsGo rest [] else acc.reverse :: splitWsGo rest []
    else splitWsGo rest (c :: acc)

/-- Python `str.split()` with no arguments: split on whitespace runs,
dropping empty fields. -/
def pySplitWs (s : String) : List String :=
  (splitWsGo s.toList []).map String.mk

def splitOnCharGo (sep : Char) : List Char → List Char → List (List Char)
  | [], acc => [acc.reverse]
  | c :: rest, acc =>
    if c = sep then acc.reverse :: splitOnCharGo sep rest []
    else splitOnCharGo sep rest (c :: acc)

/-- Python `str.split(sep)` for a one-character separator (keeps empty
fields, always returns at least one field). -/
def pySplitOnChar (sep : Char) (s : String) : List String :=
  (splitOnCharGo sep s.toList []).map String.mk

/-- Python `str.partition(sep)` for a one-character separator: the text
after the first occurrence of `sep` (the third component), or `""` when
`sep` does not occur. -/
def pyPartitionAfter (sep : Char) (s : String) : String :=
  match splitOnCharGo sep s.toList [] with
  | [] => ""
  | [_] => ""
  | _ :: rest => String.mk ((rest.map (fun l => l ++ [sep])).flatten.dropLast)

/-- Python `sep in s` for a one-character separator. -/
def pyContainsChar (sep : Char) (s : String) : Bool :=
  s.toList.contains sep

/-- Python `str.startswith(p)`. -/
def pyStartsWith (p s : String) : Bool :=
  decide (p.toList <+: s.toList)

/-- Python `str.lower()`, for the ASCII range. -/
def pyLower (s : String) : String :=
  String.mk (s.toList.map Char.toLower)

/-! ## `config.py`: `VaultConfig` (the fields the watcher core reads). -/

structure VaultConfig where
  supported_extensions : List String
  max_file_size_bytes : Nat
  max_chunk_chars : Nat
  chunk_overlap_chars : Nat
  debounce_seconds : ℚ
  clipboard_min_length : Nat
  clipboard_max_length : Nat
  history_batch_size : Nat
  history_min_command_length : Nat
  history_skip_commands : List String
deriving DecidableEq

/-- `config.DEFAULT_CONFIG`. -/
def DEFAULT_CONFIG : VaultConfig :=
  { supported_extensions :=
      [".py", ".md", ".txt", ".js", ".ts", ".jsx", ".tsx",
       ".json", ".yaml", ".yml", ".toml", ".sh", ".bash",
       ".css", ".html", ".sql", ".rs", ".go", ".java"]
    max_file_size_bytes := 1048576
    max_chunk_chars := 6000
    chunk_overlap_chars := 200
    debounce_seconds := 5
    clipboard_min_length := 10
    clipboard_max_length := 50000
    history_batch_size := 20
    history_min_command_length := 5
    history_skip_commands :=
      ["ls", "cd", "pwd", "clear", "exit", "which", "echo",
       "cat", "less", "more", "head", "tail", "man"] }

/-! ## `models.py`: `DocumentMetadata`, `Document`, `Document.generate_id`. -/

structure DocumentMetadata where
  source_type : String
  timestamp : String
  file_path : Option String := none
  file_extension : Option String := none
  tags : List String := []
  content_hash : Option String := none
deriving DecidableEq

structure Document where
  content : String
  metadata : DocumentMetadata
  id : Option String := none
deriving DecidableEq

/-- `Document.generate_id`: sets `metadata.content_hash` to the full
SHA-256 hex digest of `content` and `id` to `"doc_"` plus its first 16
characters; returns the updated document together with the returned id. -/
def Document.generate_id (d : Document) : Document × String :=
  let full_hash := sha256hex d.content
  let newId := "doc_" ++ String.mk (full_hash.toList.take 16)
  (⟨d.content, { d.metadata with content_hash := some full_hash }, some newId⟩,
   newId)

/-- `ingest.create_manual_document` (the `datetime.now` timestamp is a
parameter `ts`). -/
def create_manual_document (ts : String) (content : String)
    (tags : List String := []) (source_type : String := "manual") : Document :=
  let metadata : DocumentMetadata :=
    { source_type := source_type, timestamp := ts, tags := tags }
  (Document.generate_id ⟨content, metadata, none⟩).1

/-! ## `vault.py`: `Vault.add` over a pure model of the Chroma collection
(a keyed store upserted by document id). -/

structure VaultStore where
  rows : List (String × String × DocumentMetadata)
deriving DecidableEq

/-- Upsert one `(id, content, metadata)` row: replace the row with the
same id, or append. -/
def VaultStore.upsertRow (st : VaultStore) (id content : String)
    (md : DocumentMetadata) : VaultStore :=
  if st.rows.any (fun r => r.1 = id) then
    ⟨st.rows.map (fun r => if r.1 = id then (id, content, md) else r)⟩
  else ⟨st.rows ++ [(id, content, md)]⟩

/-- Python truthiness of `doc.id` (`if not doc.id`): `None` and `""` are
falsy. -/
def idFalsy : Option String → Bool
  | none => true
  | some s => s = ""

/-- First loop of `Vault.add`: give every document with a falsy id its
content-derived id. -/
def assignIds (docs : List Document) : List Document :=
  docs.map (fun d => if idFalsy d.id then (Document.generate_id d).1 else d)

/-- `Vault.add`: assign missing ids, upsert every document by id, and
return `len(documents)` together with the updated store. -/
def Vault.add (docs : List Document) (st : VaultStore) : Nat × VaultStore :=
  let docs' := assignIds docs
  (docs'.length,
   docs'.foldl (fun s d => s.upsertRow (d.id.getD "") d.content d.metadata) st)

/-! ## `watcher/state.py`: the SQLite-backed `WatcherState`, as a pure
record.  Each singleton table (`clipboard_state`, `history_state`,
`daemon_state`) becomes an `Option` row; `watched_directories` keeps
insertion order (`ORDER BY added_at` with a monotone clock). -/

structure WatchedDirectory where
  id : Nat
  path : String
  added_at : String
  recursive : Bool
deriving DecidableEq

inductive DaemonStatus where
  | running
  | stopped
deriving DecidableEq

/-- One row of the `daemon_state` table (`pid` is a nullable column). -/
structure DaemonRow where
  pid : Option Nat
  started_at : Option String
  status : DaemonStatus
deriving DecidableEq

structure FileStateRow where
  content_hash : String
  mtime : ℚ
  last_ingested : String
deriving DecidableEq

structure WatcherState where
  dirs : List WatchedDirectory := []
  file_state : List (String × FileStateRow) := []
  clipboard_row : Option (String × String) := none
  history_row : Option (Nat × String) := none
  daemon_row : Option DaemonRow := none
deriving DecidableEq

def emptyWatcherState : WatcherState := {}

def WatcherState.list_directories (st : WatcherState) : List WatchedDirectory :=
  st.dirs

def WatcherState.get_file_state (st : WatcherState) (file_path : String) :
    Option FileStateRow :=
  (st.file_state.find? (fun r => r.1 = file_path)).map (·.2)

def WatcherState.upsert_file_state (st : WatcherState) (file_path : String)
    (ch : String) (mtime : ℚ) (now : String) : WatcherState :=
  let row : FileStateRow := ⟨ch, mtime, now⟩
  if st.file_state.any (fun r => r.1 = file_path) then
    { st with file_state :=
        st.file_state.map (fun r => if r.1 = file_path then (file_path, row) else r) }
  else { st with file_state := st.file_state ++ [(file_path, row)] }

/-- `get_last_clipboard_hash`: the stored hash, `""` when the singleton
row does not exist yet. -/
def WatcherState.get_last_clipboard_hash (st : WatcherState) : String :=
  match st.clipboard_row with
  | some (h, _) => h
  | none => ""

def WatcherState.set_last_clipboard_hash (st : WatcherState) (hash_val : String)
    (now : String) : WatcherState :=
  { st with clipboard_row := some (hash_val, now) }

/-- `get_last_history_line`: the stored cursor, `0` when the singleton row
does not exist yet. -/
def WatcherState.get_last_history_line (st : WatcherState) : Nat :=
  match st.history_row with
  | some (n, _) => n
  | none => 0

def WatcherState.set_last_history_line (st : WatcherState) (line_num : Nat)
    (now : String) : WatcherState :=
  { st with history_row := some (line_num, now) }

def WatcherState.set_daemon_pid (st : WatcherState) (pid : Nat) (now : String) :
    WatcherState :=
  { st with daemon_row := some ⟨some pid, some now, .running⟩ }

/-- `get_daemon_pid`: the `pid` column of the row `WHERE status =
'running'`, `None` when there is no such row. -/
def WatcherState.get_daemon_pid (st : WatcherState) : Option Nat :=
  match st.daemon_row with
  | some row => if row.status = .running then row.pid else none
  | none => none

def WatcherState.clear_daemon_pid (st : WatcherState) : WatcherState :=
  match st.daemon_row with
  | some row => { st with daemon_row := some ⟨none, row.started_at, .stopped⟩ }
  | none => st

/-- The dict returned by `get_daemon_status`. -/
structure DaemonStatusInfo where
  pid : Option Nat
  started_at : Option String
  status : DaemonStatus
deriving DecidableEq

def WatcherState.get_daemon_status (st : WatcherState) : DaemonStatusInfo :=
  match st.daemon_row with
  | some row => ⟨row.pid, row.started_at, row.status⟩
  | none => ⟨none, none, .stopped⟩

/-! ## `watcher/clipboard_monitor.py`: `ClipboardMonitor.check_and_ingest`.

The clipboard read (`_get_clipboard`) is a parameter; `vault.add` calls
are recorded as a list of batches.  Note that the source of
`check_and_ingest` consults no secret filter of any kind. -/

structure ClipboardResult where
  ret : Bool
  state : WatcherState
  vault : VaultStore
  addCalls : List (List Document)
deriving DecidableEq

/-- `ClipboardMonitor.check_and_ingest`, with the clipboard text, the
timestamp, the state row and the vault passed explicitly. -/
def check_and_ingest (cfg : VaultConfig) (ts : String)
    (clipboard : Option String) (st : WatcherState) (vault : VaultStore) :
    ClipboardResult :=
  match clipboard with
  | none => ⟨false, st, vault, []⟩
  | some text =>
    if text = "" then ⟨false, st, vault, []⟩
    else if (pyStrip text).length < cfg.clipboard_min_length then
      ⟨false, st, vault, []⟩
    else if text.length > cfg.clipboard_max_length then ⟨false, st, vault, []⟩
    else
      let text := pyStrip text
      let current_hash := content_hash text
      let last_hash := st.get_last_clipboard_hash
      if current_hash = last_hash then ⟨false, st, vault, []⟩
      else
        let doc := create_manual_document ts text
          ["clipboard", "auto-captured"] "clipboard"
        let vault' := (Vault.add [doc] vault).2
        let st' := st.set_last_clipboard_hash current_hash ts
        ⟨true, st', vault', [[doc]]⟩

/-! ## `watcher/history_ingestor.py`: `parse_history_line` and
`_ingest_new_commands`. -/

/-- `HistoryIngestor.parse_history_line` (`shell_name` passed
explicitly). -/
def parse_history_line (cfg : VaultConfig) (shell_name : Option String)
    (line : String) : Option String :=
  let line := pyStrip line
  if line = "" then none
  else
    let line :=
      if shell_name = some "zsh" && pyStartsWith ": " line &&
          pyContainsChar ';' line then
        pyStrip (pyPartitionAfter ';' line)
      else line
    if line = "" then none
    else if line.length < cfg.history_min_command_length then none
    else
      let base_cmd :=
        (pySplitOnChar '/' ((pySplitWs line).headD "")).getLastD ""
      if cfg.history_skip_commands.contains base_cmd then none
      else some line

structure HistoryResult where
  ret : Nat
  state : WatcherState
  vault : VaultStore
  addCalls : List (List Document)
  considered : List String
deriving DecidableEq

/-- The batching loop of `_ingest_new_commands` over the new lines:
returns `(batch, ingested, vault, addCalls)` after the `for` loop. -/
def historyLoop (cfg : VaultConfig) (ts : String) (shell_name : Option String)
    (new_lines : List String) (vault : VaultStore) :
    List Document × Nat × VaultStore × List (List Document) :=
  new_lines.foldl
    (fun acc line =>
      let (batch, ingested, vault, calls) := acc
      match parse_history_line cfg shell_name line with
      | none => acc
      | some command =>
        let doc := create_manual_document ts command
          ["terminal", shell_name.getD "", "auto-captured"] "terminal"
        let batch := batch ++ [doc]
        if batch.length ≥ cfg.history_batch_size then
          ([], ingested + batch.length, (Vault.add batch vault).2,
           calls ++ [batch])
        else (batch, ingested, vault, calls))
    ([], 0, vault, [])

/-- `HistoryIngestor._ingest_new_commands`.  The file system read is the
parameter `lines : Option (List String)` (`none` models a missing or
unreadable history file; `history_path is None` is `shell_name = none`,
since both are set together by `_get_history_path`). -/
def ingest_new_commands (cfg : VaultConfig) (ts : String)
    (shell_name : Option String) (lines : Option (List String))
    (st : WatcherState) (vault : VaultStore) : HistoryResult :=
  if shell_name = none then ⟨0, st, vault, [], []⟩
  else
    match lines with
    | none => ⟨0, st, vault, [], []⟩
    | some lines =>
      let last_line := st.get_last_history_line
      let last_line := if last_line > lines.length then 0 else last_line
      let new_lines := lines.drop last_line
      if new_lines.isEmpty then ⟨0, st, vault, [], []⟩
      else
        let (batch, ingested, vault', calls) :=
          historyLoop cfg ts shell_name new_lines vault
        let (ingested, vault', calls) :=
          if batch.isEmpty then (ingested, vault', calls)
          else (ingested + batch.length, (Vault.add batch vault').2,
                calls ++ [batch])
        ⟨ingested, st.set_last_history_line lines.length ts, vault', calls,
         new_lines⟩

/-! ## `ingest.py`: `read_file`, `_chunk_text`, `read_file_chunked`,
`ingest_directory`.

A file on disk is a `PyFile`: the path string, its `pathlib` parts and
suffix, and the results of `is_file()`, `stat()` and `read_text()` at the
moment of the call (`read_ok = false` models an `OSError` from
`read_text`). -/

structure PyFile where
  raw : String
  parts : List String
  suffix : String
  is_file : Bool
  size : Nat
  content : String
  read_ok : Bool
  resolved : String
  mtime : ℚ
deriving DecidableEq

/-- `ingest.read_file`. -/
def read_file (cfg : VaultConfig) (ts : String) (p : PyFile) : Option Document :=
  if ¬ cfg.supported_extensions.contains (pyLower p.suffix) then none
  else if ¬ p.is_file then none
  else if p.size > cfg.max_file_size_bytes then none
  else if p.size = 0 then none
  else if ¬ p.read_ok then none
  else
    some (Document.generate_id
      ⟨p.content,
       { source_type := "file", timestamp := ts,
         file_path := some p.resolved,
         file_extension := some (pyLower p.suffix) }, none⟩).1

/-- The overlap rewind of `_chunk_text`: walk `reversed(current_chunk)`,
prepending lines while they fit in `overlap`. -/
def overlapRewind (overlap : Nat) :
    List String → Nat → List String → List String × Nat
  | [], olen, ochunk => (ochunk, olen)
  | prev :: rest, olen, ochunk =>
    if olen + prev.length + 1 > overlap then (ochunk, olen)
    else overlapRewind overlap rest (olen + prev.length + 1) (prev :: ochunk)

/-- `ingest._chunk_text`. -/
def chunk_text (text : String) (max_chars overlap : Nat) : List String :=
  if text.length ≤ max_chars then [text]
  else
    let lines := pySplitOnChar '\n' text
    let step := fun (st : List String × List String × Nat) (line : String) =>
      let (chunks, current_chunk, current_len) := st
      let line_len := line.length + 1
      let (chunks, current_chunk, current_len) :=
        if current_len + line_len > max_chars && ¬ current_chunk.isEmpty then
          let chunks := chunks ++ [String.intercalate "\n" current_chunk]
          let (ochunk, olen) := overlapRewind overlap current_chunk.reverse 0 []
          (chunks, ochunk, olen)
        else (chunks, current_chunk, current_len)
      (chunks, current_chunk ++ [line], current_len + line_len)
    let (chunks, current_chunk, _) := lines.foldl step ([], [], 0)
    if ¬ current_chunk.isEmpty then
      chunks ++ [String.intercalate "\n" current_chunk]
    else chunks

/-- `ingest.read_file_chunked`. -/
def read_file_chunked (cfg : VaultConfig) (ts : String) (p : PyFile) :
    List Document :=
  if ¬ cfg.supported_extensions.contains (pyLower p.suffix) then []
  else if ¬ p.is_file then []
  else if p.size > cfg.max_file_size_bytes then []
  else if p.size = 0 then []
  else if ¬ p.read_ok then []
  else
    let chunks := chunk_text p.content cfg.max_chunk_chars cfg.chunk_overlap_chars
    chunks.enum.map (fun ic =>
      let md : DocumentMetadata :=
        { source_type := "file", timestamp := ts,
          file_path := some p.resolved,
          file_extension := some (pyLower p.suffix),
          tags :=
            if chunks.length > 1 then
              ["chunk:" ++ toString (ic.1 + 1) ++ "/" ++ toString chunks.length]
            else [] }
      (Document.generate_id ⟨ic.2, md, none⟩).1)

/-- One entry of `directory.glob(pattern)`: the path's parts relative to
the scanned directory (what the hidden-segment check inspects), and the
file itself.  `pathlib`'s glob does return dotfiles. -/
structure DirEntry where
  relParts : List String
  file : PyFile
deriving DecidableEq

structure IngestDirResult where
  ingested : Nat
  skipped : Nat
  vault : VaultStore
  addCalls : List (List Document)
deriving DecidableEq

/-- `ingest.ingest_directory`, with the glob listing passed in. -/
def ingest_directory (cfg : VaultConfig) (ts : String)
    (listing : List DirEntry) (vault : VaultStore) : IngestDirResult :=
  let step := fun (st : Nat × Nat × List Document × VaultStore × List (List Document))
      (entry : DirEntry) =>
    let (ingested, skipped, batch, vault, calls) := st
    if entry.relParts.any (fun part => pyStartsWith "." part) then st
    else
      let docs := read_file_chunked cfg ts entry.file
      if docs.isEmpty then
        if entry.file.is_file then (ingested, skipped + 1, batch, vault, calls)
        else st
      else
        let batch := batch ++ docs
        if batch.length ≥ 50 then
          (ingested + batch.length, skipped, [], (Vault.add batch vault).2,
           calls ++ [batch])
        else (ingested, skipped, batch, vault, calls)
  let (ingested, skipped, batch, vault, calls) :=
    listing.foldl step (0, 0, [], vault, [])
  if ¬ batch.isEmpty then
    ⟨ingested + batch.length, skipped, (Vault.add batch vault).2,
     calls ++ [batch]⟩
  else ⟨ingested, skipped, vault, calls⟩

/-! ## `watcher/file_watcher.py`: `VaultFileHandler.handle_file`.

The handler's in-memory `_debounce` dict becomes an association list;
`time.monotonic()` is the parameter `now : ℚ`. -/

structure HandlerState where
  debounce : List (String × ℚ) := []
deriving DecidableEq

def HandlerState.getDebounce (h : HandlerState) (key : String) : ℚ :=
  ((h.debounce.find? (fun e => e.1 = key)).map (·.2)).getD 0

def HandlerState.setDebounce (h : HandlerState) (key : String) (t : ℚ) :
    HandlerState :=
  if h.debounce.any (fun e => e.1 = key) then
    ⟨h.debounce.map (fun e => if e.1 = key then (key, t) else e)⟩
  else ⟨h.debounce ++ [(key, t)]⟩

structure HandleResult where
  ret : Bool
  handler : HandlerState
  state : WatcherState
  vault : VaultStore
  addCalls : List (List Document)
deriving DecidableEq

/-- `VaultFileHandler.handle_file`. -/
def handle_file (cfg : VaultConfig) (ts : String) (now : ℚ) (p : PyFile)
    (h : HandlerState) (ws : WatcherState) (vault : VaultStore) : HandleResult :=
  let last := h.getDebounce p.raw
  if now - last < cfg.debounce_seconds then ⟨false, h, ws, vault, []⟩
  else
    let h := h.setDebounce p.raw now
    if p.parts.any (fun part => pyStartsWith "." part) then
      ⟨false, h, ws, vault, []⟩
    else
      match read_file cfg ts p with
      | none => ⟨false, h, ws, vault, []⟩
      | some doc =>
        let existing := ws.get_file_state p.resolved
        match existing with
        | some row =>
          if some row.content_hash = doc.metadata.content_hash then
            ⟨false, h, ws, vault, []⟩
          else
            ⟨true, h,
             ws.upsert_file_state p.resolved (doc.metadata.content_hash.getD "")
               p.mtime ts,
             (Vault.add [doc] vault).2, [[doc]]⟩
        | none =>
          ⟨true, h,
           ws.upsert_file_state p.resolved (doc.metadata.content_hash.getD "")
             p.mtime ts,
           (Vault.add [doc] vault).2, [[doc]]⟩

/-! ## `watcher/daemon.py`: `_is_process_running`, `start_daemon`,
`stop_daemon`, `daemon_status`.

`os.kill(pid, sig)` either returns or raises; its outcome is a parameter
of type `Except PyExn Unit`.  A `try`/`except` block catching a given
exception class becomes a `match` on the corresponding constructor, with
every other error re-thrown. -/

inductive PyExn where
  | processLookupError
  | permissionError
  | overflowError
  | nameError (name : String)
  | runtimeError (msg : String)
  | osError (errno : Nat)
deriving DecidableEq

/-- `_is_process_running`: probe with signal 0; `ProcessLookupError`
means dead, `PermissionError` means alive, anything else propagates
uncaught. -/
def is_process_running (kill0 : Except PyExn Unit) : Except PyExn Bool :=
  match kill0 with
  | .ok _ => .ok true
  | .error .processLookupError => .ok false
  | .error .permissionError => .ok true
  | .error e => .error e

/-- The module-level names bound in `watcher/daemon.py` (its imports and
top-level definitions).  `subprocess` is not among them. -/
def daemonModuleNames : List String :=
  ["logging", "os", "signal", "sys", "time", "Path", "Vault", "WatcherState",
   "FileWatcher", "ClipboardMonitor", "HistoryIngestor", "tempfile",
   "logger", "DEFAULT_LOG_PATH", "WatcherDaemon", "_is_process_running",
   "start_daemon", "stop_daemon", "daemon_status"]

/-- Observable environment of a background spawn: the PID the child
process would get, and whether it exits before signalling readiness. -/
structure SpawnEnv where
  childPid : Nat
  childExitedEarly : Bool
deriving DecidableEq

/-- The background branch of `start_daemon` (after the idempotence
check).  Its first statement, `subprocess.Popen(...)`, resolves the
module-level name `subprocess`; when that name is unbound the statement
raises `NameError` before anything is spawned.  The rest follows the
source text: wait for the readiness byte, raise `RuntimeError` if the
child already exited, record the child PID, return it. -/
def spawnBackground (st : WatcherState) (ts : String) (env : SpawnEnv) :
    Except PyExn (Nat × WatcherState) :=
  if daemonModuleNames.contains "subprocess" then
    if env.childExitedEarly then .error (.runtimeError "Daemon failed to start")
    else .ok (env.childPid, st.set_daemon_pid env.childPid ts)
  else .error (.nameError "subprocess")

/-- `start_daemon(foreground=False)`: idempotence check against the
recorded PID (`if existing_pid and _is_process_running(existing_pid)`;
a recorded PID of `0` is falsy), then the background spawn branch. -/
def start_daemon_background (st : WatcherState) (probe : Except PyExn Unit)
    (ts : String) (env : SpawnEnv) : Except PyExn (Nat × WatcherState) :=
  match st.get_daemon_pid with
  | some p =>
    if p ≠ 0 then
      match is_process_running probe with
      | .error e => .error e
      | .ok true => .ok (p, st)
      | .ok false => spawnBackground st ts env
    else spawnBackground st ts env
  | none => spawnBackground st ts env

/-- The `for _ in range(timeout * 2)` poll loop of `stop_daemon`:
`.ok true` when some probe reports the process gone. -/
def stopPoll (probes : Nat → Except PyExn Unit) : Nat → Nat → Except PyExn Bool
  | 0, _ => .ok false
  | n + 1, i =>
    match is_process_running (probes i) with
    | .error e => .error e
    | .ok false => .ok true
    | .ok true => stopPoll probes n (i + 1)

/-- `stop_daemon`: `probes i` is the outcome of the `i`-th liveness probe
(`probes 0` is the initial staleness check), `sigterm`/`sigkill` the
outcomes of the two `os.kill` sends. -/
def stop_daemon (st : WatcherState) (probes : Nat → Except PyExn Unit)
    (sigterm sigkill : Except PyExn Unit) (timeout : Nat := 10) :
    Except PyExn (Bool × WatcherState) :=
  match st.get_daemon_pid with
  | none => .ok (false, st)
  | some _ =>
    match is_process_running (probes 0) with
    | .error e => .error e
    | .ok false => .ok (false, st.clear_daemon_pid)
    | .ok true =>
      match sigterm with
      | .error e => .error e
      | .ok _ =>
        match stopPoll probes (timeout * 2) 1 with
        | .error e => .error e
        | .ok true => .ok (true, st.clear_daemon_pid)
        | .ok false =>
          match sigkill with
          | .error e => .error e
          | .ok _ => .ok (true, st.clear_daemon_pid)

/-- The dict returned by `daemon_status`. -/
structure StatusReport where
  pid : Option Nat
  started_at : Option String
  status : DaemonStatus
  note : Option String
  watched_directories : Nat
deriving DecidableEq

/-- `daemon_status` (`if pid and not _is_process_running(pid)`: a stored
PID of `0` is falsy and skips the probe). -/
def daemon_status (st : WatcherState) (probe : Except PyExn Unit) :
    Except PyExn (StatusReport × WatcherState) :=
  let info := st.get_daemon_status
  let asIs : StatusReport :=
    ⟨info.pid, info.started_at, info.status, none, st.list_directories.length⟩
  match info.pid with
  | none => .ok (asIs, st)
  | some p =>
    if p = 0 then .ok (asIs, st)
    else
      match is_process_running probe with
      | .error e => .error e
      | .ok true => .ok (asIs, st)
      | .ok false =>
        let st' := st.clear_daemon_pid
        .ok (⟨none, info.started_at, .stopped,
              some "Daemon was not running (stale PID cleared)",
              st'.list_directories.length⟩, st')

/-! ## Claims -/

instance {ε α : Type} [DecidableEq ε] [DecidableEq α] :
    DecidableEq (Except ε α) := fun a b =>
  match a, b with
  | .ok x, .ok y =>
    if h : x = y then .isTrue (by rw [h]) else .isFalse (by simp [h])
  | .error x, .error y =>
    if h : x = y then .isTrue (by rw [h]) else .isFalse (by simp [h])
  | .ok _, .error _ => .isFalse (by simp)
  | .error _, .ok _ => .isFalse (by simp)

/-- C2: for any two documents with identical content strings,
`Document.generate_id` produces identical ids (both as return value and
as the stored `id` field), regardless of source_type, tags, file_path,
timestamp or any other metadata: the id is a pure function of the
content alone. -/
theorem generate_id_pure_function_of_content (d1 d2 : Document)
    (h : d1.content = d2.content) :
    (Document.generate_id d1).2 = (Document.generate_id d2).2 ∧
    (Document.generate_id d1).1.id = (Document.generate_id d2).1.id := by
  simp [Document.generate_id, h]

/-- C2 witness: two documents sharing content but differing in
source_type, timestamp, tags, file_path and pre-set id get the same
generated id. -/
theorem generate_id_pure_function_of_content_witness :
    (("print(1)" : String) = "print(1)") ∧
    ((Document.generate_id
        ⟨"print(1)",
         { source_type := "file", timestamp := "2024-01-01",
           file_path := some "/a.py", tags := ["x"] }, none⟩).2 =
     (Document.generate_id
        ⟨"print(1)",
         { source_type := "clipboard", timestamp := "2025-06-06",
           tags := ["clipboard", "auto-captured"] }, some "stale"⟩).2 ∧
     (Document.generate_id
        ⟨"print(1)",
         { source_type := "file", timestamp := "2024-01-01",
           file_path := some "/a.py", tags := ["x"] }, none⟩).1.id =
     (Document.generate_id
        ⟨"print(1)",
         { source_type := "clipboard", timestamp := "2025-06-06",
           tags := ["clipboard", "auto-captured"] }, some "stale"⟩).1.id) :=
  ⟨rfl, generate_id_pure_function_of_content _ _ rfl⟩

/-- C7 counterexample: the claim says the liveness probe returns true
(alive, conservative) for every outcome other than success, permission
denied and no-such-process; but for an `OverflowError` (an out-of-range
PID handed to `os.kill`) `_is_process_running` does not return true — the
exception is uncaught and propagates. -/
theorem is_process_running_other_outcome_not_true :
    is_process_running (Except.error PyExn.overflowError) ≠ Except.ok true ∧
    is_process_running (Except.error PyExn.overflowError) =
      Except.error PyExn.overflowError := by
  exact ⟨by decide, rfl⟩

/-- C7 (amended): `_is_process_running` returns true when the zero-signal
send succeeds or fails with permission denied, false when it fails with
no-such-process, and for every other outcome it raises (propagates the
exception) instead of returning true. -/
theorem is_process_running_semantics :
    is_process_running (Except.ok ()) = Except.ok true ∧
    is_process_running (Except.error PyExn.processLookupError) =
      Except.ok false ∧
    is_process_running (Except.error PyExn.permissionError) = Except.ok true ∧
    ∀ e : PyExn, e ≠ PyExn.processLookupError → e ≠ PyExn.permissionError →
      is_process_running (Except.error e) = Except.error e := by
  refine ⟨rfl, rfl, rfl, fun e h1 h2 => ?_⟩
  cases e <;> simp_all [is_process_running]

/-- C7 witness: the amended semantics applied to the concrete
`OverflowError` outcome. -/
theorem is_process_running_semantics_witness :
    (PyExn.overflowError ≠ PyExn.processLookupError) ∧
    (PyExn.overflowError ≠ PyExn.permissionError) ∧
    is_process_running (Except.error PyExn.overflowError) =
      Except.error PyExn.overflowError :=
  ⟨by decide, by decide,
   is_process_running_semantics.2.2.2 PyExn.overflowError (by decide) (by decide)⟩

/-- C3: with no live daemon recorded, `start_daemon(foreground=False)`
never reaches the spawn: its first statement raises
`NameError: name 'subprocess' is not defined`, because `daemon.py` uses
`subprocess.Popen` without importing `subprocess`.  The claimed behaviour
(spawn a detached child, await readiness, record and return the child's
PID) is unreachable. -/
theorem start_daemon_background_raises_name_error :
    start_daemon_background emptyWatcherState (Except.ok ()) "2024-01-01"
      ⟨43210, false⟩ = Except.error (PyExn.nameError "subprocess") := by
  decide

/-- C10: `Vault.add` returns the length of its input list — whatever the
prior contents of the store — and gives every document whose id is unset
(`None` or `""`) the content-derived generated id before upserting. -/
theorem vault_add_returns_input_length (docs : List Document) (st : VaultStore) :
    (Vault.add docs st).1 = docs.length ∧
    ∀ (i : Nat) (d : Document), docs.get? i = some d → idFalsy d.id →
      (assignIds docs).get? i = some (Document.generate_id d).1 := by
  constructor
  · simp [Vault.add, assignIds]
  · intro i d h hf
    rw [List.get?_eq_getElem?] at h
    simp [assignIds, List.getElem?_map, h, hf]

/-- C10 witness: resubmitting a document whose generated id is already a
row of the store still counts 1, and the unset id is assigned. -/
theorem vault_add_returns_input_length_witness :
    ((Vault.add
        [⟨"dup", { source_type := "manual", timestamp := "t" }, none⟩]
        ⟨[((Document.generate_id
              ⟨"dup", { source_type := "manual", timestamp := "t" }, none⟩).2,
           "dup", { source_type := "manual", timestamp := "t" })]⟩).1 = 1) ∧
    ([⟨"dup", { source_type := "manual", timestamp := "t" }, none⟩] :
        List Document).get? 0 =
      some ⟨"dup", { source_type := "manual", timestamp := "t" }, none⟩ ∧
    idFalsy (none : Option String) := by
  refine ⟨?_, by decide, by decide⟩
  exact (vault_add_returns_input_length _ _).1

/-- The clipboard text of the C1 scenario. -/
def apiKeyText : String := "API_KEY=abcdefghijklmnopqrstuvwxyz123456"

/-- Helper: whenever the clipboard text is non-empty, passes both length
gates and hashes differently from the stored fingerprint,
`check_and_ingest` ingests it: one `add` call with one document. -/
theorem check_and_ingest_ingests_new_text (cfg : VaultConfig) (ts text : String)
    (st : WatcherState) (vault : VaultStore)
    (hne : ¬ text = "")
    (hmin : ¬ (pyStrip text).length < cfg.clipboard_min_length)
    (hmax : ¬ text.length > cfg.clipboard_max_length)
    (hhash : ¬ content_hash (pyStrip text) = st.get_last_clipboard_hash) :
    check_and_ingest cfg ts (some text) st vault =
      ⟨true,
       st.set_last_clipboard_hash (content_hash (pyStrip text)) ts,
       (Vault.add [create_manual_document ts (pyStrip text)
          ["clipboard", "auto-captured"] "clipboard"] vault).2,
       [[create_manual_document ts (pyStrip text)
          ["clipboard", "auto-captured"] "clipboard"]]⟩ := by
  simp [check_and_ingest, hne, hmin, hmax, hhash]

/-- C1 counterexample: `check_and_ingest`, called while the clipboard
holds `"API_KEY=abcdefghijklmnopqrstuvwxyz123456"` (text the spec's
secret filter classifies as sensitive), returns true and calls the
content store's `add` exactly once with exactly that text — the source
never consults any secret filter, so there is no configuration in which
it returns false and skips the add for this input. -/
theorem check_and_ingest_sensitive_text_still_ingested :
    (check_and_ingest DEFAULT_CONFIG "t" (some apiKeyText)
        emptyWatcherState ⟨[]⟩).ret = true ∧
    (check_and_ingest DEFAULT_CONFIG "t" (some apiKeyText)
        emptyWatcherState ⟨[]⟩).addCalls.map
      (fun batch => batch.map (fun d => d.content)) = [[apiKeyText]] := by
  constructor
  · decide
  · decide

/-- C1 (amended): `ClipboardMonitor` has no secret-filter hook.  With the
clipboard holding `"API_KEY=abcdefghijklmnopqrstuvwxyz123456"` and its
hash differing from the stored fingerprint, `check_and_ingest` returns
true and the content store's `add` is called exactly once with that text
— there is no filtering-enabled mode in which the text is skipped. -/
theorem check_and_ingest_api_key_no_filter (ts : String) (st : WatcherState)
    (vault : VaultStore)
    (hhash : ¬ content_hash apiKeyText = st.get_last_clipboard_hash) :
    (check_and_ingest DEFAULT_CONFIG ts (some apiKeyText) st vault).ret =
      true ∧
    (check_and_ingest DEFAULT_CONFIG ts (some apiKeyText) st vault).addCalls.map
      (fun batch => batch.map (fun d => d.content)) = [[apiKeyText]] := by
  have hstrip : pyStrip apiKeyText = apiKeyText := by decide
  have heq := check_and_ingest_ingests_new_text DEFAULT_CONFIG ts apiKeyText
    st vault (by decide) (by decide) (by decide) (by rwa [hstrip])
  rw [heq]
  refine ⟨rfl, ?_⟩
  simp [create_manual_document, Document.generate_id, hstrip]

/-- C1 witness: the amended theorem applied to the fresh state (stored
fingerprint `""`). -/
theorem check_and_ingest_api_key_no_filter_witness :
    (¬ content_hash apiKeyText =
        (emptyWatcherState).get_last_clipboard_hash) ∧
    (check_and_ingest DEFAULT_CONFIG "t" (some apiKeyText)
        emptyWatcherState ⟨[]⟩).ret = true :=
  ⟨by decide,
   (check_and_ingest_api_key_no_filter "t" emptyWatcherState ⟨[]⟩ (by decide)).1⟩

/-- C4 counterexample: the claim says that after every completed run of
`_ingest_new_commands` on an existing readable history file the persisted
cursor equals the file's line count.  With the cursor at 5 and the file
truncated to zero lines, the run completes (returns 0) but leaves the
stored cursor at 5 ≠ 0: the `if not new_lines: return 0` early exit skips
the cursor update, so the truncation reset is never persisted. -/
theorem history_cursor_stale_after_truncate_to_empty :
    (ingest_new_commands DEFAULT_CONFIG "t" (some "zsh") (some [])
        (emptyWatcherState.set_last_history_line 5 "t0")
        ⟨[]⟩).state.get_last_history_line ≠ ([] : List String).length ∧
    (ingest_new_commands DEFAULT_CONFIG "t" (some "zsh") (some [])
        (emptyWatcherState.set_last_history_line 5 "t0")
        ⟨[]⟩).state.get_last_history_line = 5 ∧
    (ingest_new_commands DEFAULT_CONFIG "t2" (some "zsh") (some [])
        (ingest_new_commands DEFAULT_CONFIG "t" (some "zsh") (some [])
          (emptyWatcherState.set_last_history_line 5 "t0") ⟨[]⟩).state
        ⟨[]⟩).state.get_last_history_line = 5 := by
  refine ⟨by decide, by decide, by decide⟩

/-- C4 (amended): after every completed run of `_ingest_new_commands` in
which at least one line lies past the (truncation-reset) cursor, the
persisted cursor is updated to the file's total line count — even when
zero of those lines qualified for ingestion.  When no new lines exist the
cursor is left untouched, so a file truncated to zero lines keeps the
stale cursor until lines reappear. -/
theorem history_cursor_updated_when_new_lines_exist (cfg : VaultConfig)
    (ts sh : String) (lines : List String) (st : WatcherState)
    (vault : VaultStore)
    (h : ¬ (lines.drop
        (if st.get_last_history_line > lines.length then 0
         else st.get_last_history_line)).isEmpty) :
    (ingest_new_commands cfg ts (some sh) (some lines) st
        vault).state.get_last_history_line = lines.length := by
  simp only [ingest_new_commands]
  rw [if_neg (by simp)]
  rw [if_neg h]
  rfl

/-- C4 witness: two new lines, both rejected (skip-list and too short) —
zero ingested, yet the cursor advances to the line count 2. -/
theorem history_cursor_updated_when_new_lines_exist_witness :
    (¬ ((["ls -la /tmp\n", "cd x\n"] : List String).drop
        (if (emptyWatcherState.get_last_history_line >
              (["ls -la /tmp\n", "cd x\n"] : List String).length) then 0
         else emptyWatcherState.get_last_history_line)).isEmpty) ∧
    (ingest_new_commands DEFAULT_CONFIG "t" (some "zsh")
        (some ["ls -la /tmp\n", "cd x\n"]) emptyWatcherState
        ⟨[]⟩).state.get_last_history_line = 2 ∧
    (ingest_new_commands DEFAULT_CONFIG "t" (some "zsh")
        (some ["ls -la /tmp\n", "cd x\n"]) emptyWatcherState ⟨[]⟩).ret = 0 :=
  ⟨by decide,
   history_cursor_updated_when_new_lines_exist DEFAULT_CONFIG "t" "zsh"
     ["ls -la /tmp\n", "cd x\n"] emptyWatcherState ⟨[]⟩ (by decide),
   by decide⟩

/-- C5: when the stored history cursor exceeds the file's current line
count, the next `_ingest_new_commands` run treats the cursor as 0: every
line of the new shorter file is considered new, and the run's return
value, add calls and resulting vault are the same as a run whose stored
cursor is 0. -/
theorem history_truncation_treats_all_lines_as_new (cfg : VaultConfig)
    (ts sh : String) (lines : List String) (st : WatcherState)
    (vault : VaultStore)
    (h : st.get_last_history_line > lines.length) :
    (ingest_new_commands cfg ts (some sh) (some lines) st vault).considered =
      lines ∧
    (ingest_new_commands cfg ts (some sh) (some lines) st vault).ret =
      (ingest_new_commands cfg ts (some sh) (some lines)
        (st.set_last_history_line 0 ts) vault).ret ∧
    (ingest_new_commands cfg ts (some sh) (some lines) st vault).addCalls =
      (ingest_new_commands cfg ts (some sh) (some lines)
        (st.set_last_history_line 0 ts) vault).addCalls ∧
    (ingest_new_commands cfg ts (some sh) (some lines) st vault).vault =
      (ingest_new_commands cfg ts (some sh) (some lines)
        (st.set_last_history_line 0 ts) vault).vault := by
  have h0 : (st.set_last_history_line 0 ts).get_last_history_line = 0 := rfl
  simp only [ingest_new_commands, h0]
  rw [if_pos h, if_neg (show ¬ (0 > lines.length) by simp)]
  by_cases he : lines.isEmpty
  · simp_all [List.isEmpty_iff]
  · simp_all

/-- C5 witness: cursor 10 against a 2-line file — both lines are
considered new and the run matches a cursor-0 run. -/
theorem history_truncation_treats_all_lines_as_new_witness :
    ((emptyWatcherState.set_last_history_line 10 "t0").get_last_history_line >
      (["git status please\n", "ls\n"] : List String).length) ∧
    (ingest_new_commands DEFAULT_CONFIG "t" (some "zsh")
        (some ["git status please\n", "ls\n"])
        (emptyWatcherState.set_last_history_line 10 "t0") ⟨[]⟩).considered =
      ["git status please\n", "ls\n"] :=
  ⟨by decide,
   (history_truncation_treats_all_lines_as_new DEFAULT_CONFIG "t" "zsh"
     ["git status please\n", "ls\n"]
     (emptyWatcherState.set_last_history_line 10 "t0") ⟨[]⟩ (by decide)).1⟩

/-! ### C6: the four-file non-recursive scan scenario. -/

/-- `a.py`, 10 bytes of supported content. -/
def c6aPy : PyFile :=
  { raw := "/vault/a.py", parts := ["/", "vault", "a.py"], suffix := ".py",
    is_file := true, size := 10, content := "x = 42 # a", read_ok := true,
    resolved := "/vault/a.py", mtime := 0 }

/-- `b.md`, a small supported markdown file. -/
def c6bMd : PyFile :=
  { raw := "/vault/b.md", parts := ["/", "vault", "b.md"], suffix := ".md",
    is_file := true, size := 7, content := "# notes", read_ok := true,
    resolved := "/vault/b.md", mtime := 0 }

/-- `.secret`, a hidden file (a dotfile has an empty `pathlib` suffix). -/
def c6Secret : PyFile :=
  { raw := "/vault/.secret", parts := ["/", "vault", ".secret"], suffix := "",
    is_file := true, size := 6, content := "hushhh", read_ok := true,
    resolved := "/vault/.secret", mtime := 0 }

/-- `empty.py`, zero bytes. -/
def c6EmptyPy : PyFile :=
  { raw := "/vault/empty.py", parts := ["/", "vault", "empty.py"],
    suffix := ".py", is_file := true, size := 0, content := "",
    read_ok := true, resolved := "/vault/empty.py", mtime := 0 }

/-- The non-recursive glob listing of the C6 directory (pathlib's glob
also returns the dotfile). -/
def c6Listing : List DirEntry :=
  [⟨["a.py"], c6aPy⟩, ⟨["b.md"], c6bMd⟩, ⟨[".secret"], c6Secret⟩,
   ⟨["empty.py"], c6EmptyPy⟩]

/-- C6 counterexample: the non-recursive scan of the directory with
`a.py` (10 bytes), `b.md`, hidden `.secret` and zero-byte `empty.py` does
not report 2 files skipped: the hidden file is excluded by `continue`
before the skip counter, so only `empty.py` is counted skipped. -/
theorem ingest_directory_c6_not_two_skipped :
    ¬ ((ingest_directory DEFAULT_CONFIG "t" c6Listing ⟨[]⟩).ingested = 2 ∧
       (ingest_directory DEFAULT_CONFIG "t" c6Listing ⟨[]⟩).skipped = 2) := by
  decide

/-- C6 (amended): the scan ingests exactly 2 files (`a.py` and `b.md`,
submitted in one `add` batch) and reports exactly 1 skipped (the
zero-byte `empty.py`); the hidden `.secret` is excluded from both
counts. -/
theorem ingest_directory_c6_counts :
    (ingest_directory DEFAULT_CONFIG "t" c6Listing ⟨[]⟩).ingested = 2 ∧
    (ingest_directory DEFAULT_CONFIG "t" c6Listing ⟨[]⟩).skipped = 1 ∧
    (ingest_directory DEFAULT_CONFIG "t" c6Listing ⟨[]⟩).addCalls.map
      (fun batch => batch.map (fun d => d.content)) =
      [["x = 42 # a", "# notes"]] := by
  refine ⟨by decide, by decide, by decide⟩

/-- C8: `stop_daemon` with a recorded PID whose liveness probe reports
no-such-process clears the stale daemon record and returns false ("not
running"); `daemon_status` on the resulting state then reports status
stopped with pid None (and no probe is attempted, the pid being gone). -/
theorem stop_daemon_stale_pid_then_status_stopped (st : WatcherState)
    (probes : Nat → Except PyExn Unit)
    (sigterm sigkill probe2 : Except PyExn Unit) (timeout p : Nat)
    (hpid : st.get_daemon_pid = some p)
    (hdead : probes 0 = Except.error PyExn.processLookupError) :
    stop_daemon st probes sigterm sigkill timeout =
      Except.ok (false, st.clear_daemon_pid) ∧
    daemon_status st.clear_daemon_pid probe2 =
      Except.ok
        (⟨none, (st.clear_daemon_pid).get_daemon_status.started_at,
          DaemonStatus.stopped, none, st.dirs.length⟩, st.clear_daemon_pid) := by
  rcases hrow : st.daemon_row with _ | row
  · exfalso
    simp [WatcherState.get_daemon_pid, hrow] at hpid
  · constructor
    · simp [stop_daemon, hpid, hdead, is_process_running]
    · simp [daemon_status, WatcherState.clear_daemon_pid,
        WatcherState.get_daemon_status, WatcherState.list_directories, hrow]

/-- C8 witness: a stored stale PID 99999999 with a dead-process probe. -/
theorem stop_daemon_stale_pid_then_status_stopped_witness :
    ((emptyWatcherState.set_daemon_pid 99999999 "t0").get_daemon_pid =
      some 99999999) ∧
    stop_daemon (emptyWatcherState.set_daemon_pid 99999999 "t0")
        (fun _ => Except.error PyExn.processLookupError) (Except.ok ())
        (Except.ok ()) 10 =
      Except.ok
        (false, (emptyWatcherState.set_daemon_pid 99999999 "t0").clear_daemon_pid) :=
  ⟨by decide,
   (stop_daemon_stale_pid_then_status_stopped
     (emptyWatcherState.set_daemon_pid 99999999 "t0")
     (fun _ => Except.error PyExn.processLookupError) (Except.ok ())
     (Except.ok ()) (Except.ok ()) 10 99999999 (by decide) rfl).1⟩

/-! ### C9: the in-memory debounce of `VaultFileHandler.handle_file`. -/

theorem find_map_upsert (k : String) (t : ℚ) :
    ∀ l : List (String × ℚ), l.any (fun e => e.1 = k) = true →
      (l.map (fun e => if e.1 = k then (k, t) else e)).find?
        (fun e => e.1 = k) = some (k, t) := by
  intro l
  induction l with
  | nil => simp
  | cons e rest ih =>
    intro h
    by_cases he : e.1 = k
    · rw [List.map_cons, if_pos he, List.find?_cons_of_pos _ (by simp)]
    · rw [List.map_cons, if_neg he, List.find?_cons_of_neg _ (by simp [he])]
      exact ih (by simpa [he] using h)

theorem find_append_new (k : String) (t : ℚ) :
    ∀ l : List (String × ℚ), ¬ l.any (fun e => e.1 = k) = true →
      (l ++ [(k, t)]).find? (fun e => e.1 = k) = some (k, t) := by
  intro l
  induction l with
  | nil => simp [List.find?]
  | cons e rest ih =>
    intro h
    simp only [List.any_cons, Bool.or_eq_true, not_or] at h
    rw [List.cons_append, List.find?_cons_of_neg _ (by simp [h.1])]
    exact ih (by simpa using h.2)

/-- After `setDebounce k t`, the debounce timestamp read back for `k` is
`t`. -/
theorem getDebounce_setDebounce (h : HandlerState) (k : String) (t : ℚ) :
    (h.setDebounce k t).getDebounce k = t := by
  unfold HandlerState.setDebounce HandlerState.getDebounce
  by_cases ha : h.debounce.any (fun e => e.1 = k) = true
  · simp [ha, find_map_upsert k t h.debounce ha]
  · simp [ha, find_append_new k t h.debounce ha]

/-- Whenever a `handle_file` call passes the debounce gate, it records
its timestamp for the path before any of the later checks run: the
resulting handler state is exactly `setDebounce p.raw now`, in every
branch (hidden, unsupported, unchanged, or ingested). -/
theorem handle_file_sets_debounce (cfg : VaultConfig) (ts : String) (now : ℚ)
    (p : PyFile) (hs : HandlerState) (ws : WatcherState) (vault : VaultStore)
    (hgate : ¬ now - hs.getDebounce p.raw < cfg.debounce_seconds) :
    (handle_file cfg ts now p hs ws vault).handler =
      hs.setDebounce p.raw now := by
  simp only [handle_file]
  rw [if_neg hgate]
  split
  · rfl
  · split
    · rfl
    · split
      · split
        · rfl
        · rfl
      · rfl

/-- C9: `handle_file` records its in-memory debounce timestamp for a path
before the hidden-path, extension, size and content-hash checks; hence
for every path, a second call within `debounce_seconds` of a prior
(gate-passing) call returns false and changes nothing — handler, state
and vault are untouched and no `add` happens — even when that prior call
itself ingested nothing. -/
theorem handle_file_second_call_within_window_noop (cfg : VaultConfig)
    (ts1 ts2 : String) (t1 t2 : ℚ) (p q : PyFile) (hs : HandlerState)
    (ws : WatcherState) (vault : VaultStore)
    (hgate : ¬ t1 - hs.getDebounce p.raw < cfg.debounce_seconds)
    (hwin : t2 - t1 < cfg.debounce_seconds)
    (hraw : q.raw = p.raw) :
    (handle_file cfg ts1 t1 p hs ws vault).handler.getDebounce p.raw = t1 ∧
    handle_file cfg ts2 t2 q (handle_file cfg ts1 t1 p hs ws vault).handler
        (handle_file cfg ts1 t1 p hs ws vault).state
        (handle_file cfg ts1 t1 p hs ws vault).vault =
      ⟨false, (handle_file cfg ts1 t1 p hs ws vault).handler,
       (handle_file cfg ts1 t1 p hs ws vault).state,
       (handle_file cfg ts1 t1 p hs ws vault).vault, []⟩ := by
  set r := handle_file cfg ts1 t1 p hs ws vault with hr
  have hget : r.handler.getDebounce p.raw = t1 := by
    rw [hr, handle_file_sets_debounce cfg ts1 t1 p hs ws vault hgate,
      getDebounce_setDebounce]
  refine ⟨hget, ?_⟩
  simp only [handle_file, hraw, hget]
  rw [if_pos hwin]

/-- The hidden file of the C9 witness scenario. -/
def c9File : PyFile :=
  { raw := "/w/.hidden.py", parts := ["/", "w", ".hidden.py"], suffix := ".py",
    is_file := true, size := 3, content := "x=1", read_ok := true,
    resolved := "/w/.hidden.py", mtime := 0 }

/-- C9 witness: a hidden path — the first call at t=100 ingests nothing
(rejected as hidden), yet the second call at t=102 is debounced. -/
theorem handle_file_second_call_within_window_noop_witness :
    (¬ (100 : ℚ) - (HandlerState.mk []).getDebounce c9File.raw <
        DEFAULT_CONFIG.debounce_seconds) ∧
    ((102 : ℚ) - 100 < DEFAULT_CONFIG.debounce_seconds) ∧
    (handle_file DEFAULT_CONFIG "t1" 100 c9File (HandlerState.mk [])
        emptyWatcherState ⟨[]⟩).ret = false ∧
    (handle_file DEFAULT_CONFIG "t1" 100 c9File (HandlerState.mk [])
        emptyWatcherState ⟨[]⟩).handler.getDebounce c9File.raw = 100 := by
  have hgate0 : ¬ (100 : ℚ) - (HandlerState.mk []).getDebounce c9File.raw <
      DEFAULT_CONFIG.debounce_seconds := by
    show ¬ (100 : ℚ) - 0 < 5
    norm_num
  have hwin0 : (102 : ℚ) - 100 < DEFAULT_CONFIG.debounce_seconds := by
    show (102 : ℚ) - 100 < 5
    norm_num
  have hret : (handle_file DEFAULT_CONFIG "t1" 100 c9File (HandlerState.mk [])
      emptyWatcherState ⟨[]⟩).ret = false := by
    simp only [handle_file]
    rw [if_neg hgate0,
      if_pos (show c9File.parts.any (fun part => pyStartsWith "." part) = true
        by decide)]
  exact ⟨hgate0, hwin0, hret,
    (handle_file_second_call_within_window_noop DEFAULT_CONFIG "t1" "t2" 100 102
      c9File c9File (HandlerState.mk []) emptyWatcherState ⟨[]⟩ hgate0 hwin0
      rfl).1⟩

end ContextCore
